import Mathlib

/-!
Verification of the MealMapper data-access layer (src/server/appService.js and
src/server/appController.js) against its natural-language specification.

The embedding models:
* `withOracleDB` — the scoped connection wrapper (appService.js, lines 48-65);
* one pure function per SQL statement giving the statement's relational
  meaning over explicit table lists;
* one executor per service function, wrapping its SQL meaning in
  `withOracleDB` plus the `.catch` that maps failures to safe defaults;
* one route function per Express handler in appController.js, mapping an
  executor result to an HTTP status and JSON envelope shape.

Database nondeterminism (connection acquisition failure, statement execution
failure, close failure) is captured by a `DBEnv` record of outcome flags.
-/

/-- Failure kinds observable at the data-access layer. -/
inductive DBErr where
  | connFail
  | execFail
deriving DecidableEq, Repr

/-- Observable events of one `withOracleDB` run, in execution order:
`acquired` — `oracledb.getConnection()` returned a connection;
`errLogged` — the `catch` block ran `console.error(err)`;
`released` — `connection.close()` was invoked in the `finally` block;
`closeErrLogged` — the close attempt itself threw and was logged. -/
inductive DBEvent where
  | acquired
  | errLogged
  | released
  | closeErrLogged
deriving DecidableEq, Repr

/-- appService.js lines 48-65:
```
async function withOracleDB(action) {
    let connection;
    try {
        connection = await oracledb.getConnection();
        return await action(connection);
    } catch (err) {
        console.error(err);
        throw err;
    } finally {
        if (connection) {
            try { await connection.close(); }
            catch (err) { console.error(err); }
        }
    }
}
```
The result is the value or rethrown error, paired with the event trace in
execution order.  When acquisition fails, `connection` is never set, so the
`finally` block does not call `close`. -/
def withOracleDB {α : Type} (acquire : Except DBErr Unit) (action : Unit → Except DBErr α)
    (closeFails : Bool) : Except DBErr α × List DBEvent :=
  match acquire with
  | .error e => (.error e, [DBEvent.errLogged])
  | .ok c =>
    let closeTrace :=
      if closeFails then [DBEvent.released, DBEvent.closeErrLogged] else [DBEvent.released]
    match action c with
    | .ok v => (.ok v, DBEvent.acquired :: closeTrace)
    | .error e => (.error e, DBEvent.acquired :: DBEvent.errLogged :: closeTrace)

/-- Environment flags for one database round trip: whether connection
acquisition fails, whether statement execution (including its commit) fails,
and whether the final `connection.close()` fails. -/
structure DBEnv where
  connFails : Bool
  execFails : Bool
  closeFails : Bool
deriving DecidableEq, Repr

/-- The acquisition outcome described by the environment. -/
def DBEnv.acquire (env : DBEnv) : Except DBErr Unit :=
  if env.connFails then .error .connFail else .ok ()

/-- The execution outcome described by the environment: the statement's
relational meaning `v` on success, an error otherwise. -/
def DBEnv.exec {α : Type} (env : DBEnv) (v : α) : Except DBErr α :=
  if env.execFails then .error .execFail else .ok v

/-- The environment lets the whole round trip succeed. -/
def DBEnv.ok (env : DBEnv) : Prop :=
  env.connFails = false ∧ env.execFails = false

instance (env : DBEnv) : Decidable env.ok := by
  unfold DBEnv.ok; infer_instance

/-- The executor pattern of appService.js: `withOracleDB(async (connection) =>
{ ... return value; }).catch((err) => { ... return dflt; })`. -/
def runCatch {α : Type} (env : DBEnv) (value dflt : α) : α :=
  match (withOracleDB env.acquire (fun _ => env.exec value) env.closeFails).1 with
  | .ok v => v
  | .error _ => dflt

/-- An all-success environment. -/
def envOK : DBEnv := ⟨false, false, false⟩

/-- Connection acquisition fails. -/
def envConnFail : DBEnv := ⟨true, false, false⟩

/-- Statement execution fails. -/
def envExecFail : DBEnv := ⟨false, true, false⟩

theorem runCatch_of_ok {α : Type} (env : DBEnv) (v d : α) (h : env.ok) :
    runCatch env v d = v := by
  obtain ⟨h1, h2⟩ := h
  simp [runCatch, withOracleDB, DBEnv.acquire, DBEnv.exec, h1, h2]

theorem runCatch_of_fail {α : Type} (env : DBEnv) (v d : α) (h : ¬ env.ok) :
    runCatch env v d = d := by
  rcases env with ⟨cf, ef, clf⟩
  cases cf <;> cases ef <;>
    simp [DBEnv.ok, runCatch, withOracleDB, DBEnv.acquire, DBEnv.exec] at h ⊢

theorem runCatch_cases {α : Type} (env : DBEnv) (v d : α) :
    runCatch env v d = v ∨ runCatch env v d = d := by
  by_cases h : env.ok
  · exact Or.inl (runCatch_of_ok env v d h)
  · exact Or.inr (runCatch_of_fail env v d h)

/-! ### Data model: rows of the relational store -/

/-- A row of `RecipeCreated2`. -/
structure Recipe where
  recipeID : Nat
  recipeName : String
  cuisine : String
  cookingTime : String
  userID : Nat
deriving DecidableEq, Repr

/-- A row of `RecipeCreated1` (cuisine → difficulty level lookup). -/
structure CuisineLevel where
  cuisine : String
  recipeLevel : String
deriving DecidableEq, Repr

/-- A row of `Users2` (recipe creators). -/
structure Account where
  userID : Nat
  userName : String
deriving DecidableEq, Repr

/-- A row of `User2` (users with accumulated points). -/
structure User where
  userID : Nat
  userName : String
  points : Nat
deriving DecidableEq, Repr

/-- A row of `User1` (the tier lookup table: points threshold → level name). -/
structure Tier where
  points : Nat
  userLevel : String
deriving DecidableEq, Repr

/-- A row of `Locations`. -/
structure Location where
  street : String
  city : String
  province : String
  locationType : String
deriving DecidableEq, Repr

/-- A row of `RecipesLiked`. -/
structure LikeRow where
  userID : Nat
  recipeID : Nat
  liked : Bool
deriving DecidableEq, Repr

/-- A row of `UserPantries`. -/
structure UserPantry where
  userID : Nat
  pantryID : Nat
deriving DecidableEq, Repr

/-- A row of `SavedPantry`. -/
structure SavedPantry where
  pantryID : Nat
  category : String
deriving DecidableEq, Repr

/-- A row of `Steps`. -/
structure Step where
  recipeID : Nat
  stepNumber : Nat
  instruction : String
deriving DecidableEq, Repr

/-- A row of the images table. -/
structure Image where
  recipeID : Nat
  url : String
  caption : Option String
deriving DecidableEq, Repr

/-! ### Result-row shapes of the SELECT statements -/

/-- Row of `fetchRecipeByID` and `fetchLikedRecipes`:
(RecipeID, RecipeName, Cuisine, CookingTime, CreatedBy). -/
structure RecipeJoinRow where
  recipeID : Nat
  recipeName : String
  cuisine : String
  cookingTime : String
  createdBy : String
deriving DecidableEq, Repr

/-- Row of `fetchAllRecipes`:
(RecipeID, RecipeName, Cuisine, RecipeLevel, CookingTime, CreatedBy). -/
structure FullRecipeRow where
  recipeID : Nat
  recipeName : String
  cuisine : String
  recipeLevel : String
  cookingTime : String
  createdBy : String
deriving DecidableEq, Repr

/-- Row of `fetchUser` / `fetchAllUsers`:
(UserId, UserName, Points, UserLevel). -/
structure UserRow where
  userID : Nat
  userName : String
  points : Nat
  userLevel : String
deriving DecidableEq, Repr

/-- Row of `fetchPantries`: (UserID, PantryID, Category). -/
structure PantryRow where
  userID : Nat
  pantryID : Nat
  category : String
deriving DecidableEq, Repr

/-! ### Sort orders used by ORDER BY clauses -/

/-- ORDER BY City, Street (lexicographic). -/
def locLE (a b : Location) : Prop :=
  a.city < b.city ∨ (a.city = b.city ∧ a.street ≤ b.street)

instance : DecidableRel locLE := fun a b => by
  unfold locLE; infer_instance

/-- ORDER BY RecipeID on joined recipe rows. -/
def joinRowLE (a b : RecipeJoinRow) : Prop := a.recipeID ≤ b.recipeID

instance : DecidableRel joinRowLE := fun a b => Nat.decLe a.recipeID b.recipeID

/-- ORDER BY RecipeID on full recipe rows. -/
def fullRowLE (a b : FullRecipeRow) : Prop := a.recipeID ≤ b.recipeID

instance : DecidableRel fullRowLE := fun a b => Nat.decLe a.recipeID b.recipeID

/-- ORDER BY u.UserID on user rows. -/
def userRowLE (a b : UserRow) : Prop := a.userID ≤ b.userID

instance : DecidableRel userRowLE := fun a b => Nat.decLe a.userID b.userID

/-! ### SQL statement meanings (one pure function per statement) -/

/-- appService.js lines 83-87: `SELECT Street, City, Province, LocationType
FROM Locations ORDER BY City, Street`. -/
def fetchAllLocationsSQL (locations : List Location) : List Location :=
  List.insertionSort locLE locations

/-- appService.js lines 98-104: recipes joined with the cuisine-level lookup
on Cuisine and with Users2 on UserID, ordered by RecipeID. -/
def fetchAllRecipesSQL (recipes : List Recipe) (levels : List CuisineLevel)
    (accounts : List Account) : List FullRecipeRow :=
  List.insertionSort fullRowLE
    (recipes.flatMap (fun r =>
      (levels.filter (fun rc => r.cuisine == rc.cuisine)).flatMap (fun rc =>
        (accounts.filter (fun u => r.userID == u.userID)).map (fun u =>
          ⟨r.recipeID, r.recipeName, r.cuisine, rc.recipeLevel, r.cookingTime, u.userName⟩))))

/-- appService.js lines 115-122: RecipesLiked filtered to Liked = 1, joined
with RecipeCreated2 on RecipeID and Users2 on UserID, ordered by RecipeID. -/
def fetchLikedRecipesSQL (likes : List LikeRow) (recipes : List Recipe)
    (accounts : List Account) : List RecipeJoinRow :=
  List.insertionSort joinRowLE
    ((likes.filter (fun rl => rl.liked)).flatMap (fun rl =>
      (recipes.filter (fun rc => rl.recipeID == rc.recipeID)).flatMap (fun rc =>
        (accounts.filter (fun u => rc.userID == u.userID)).map (fun u =>
          ⟨rl.recipeID, rc.recipeName, rc.cuisine, rc.cookingTime, u.userName⟩))))

/-- Request body of POST /recipe and PUT /recipe/:id (RecipeID supplied
separately). -/
structure RecipeBody where
  recipeName : String
  cuisine : String
  cookingTime : String
  userID : Nat
deriving DecidableEq, Repr

/-- appService.js lines 133-145: `INSERT INTO RecipeCreated2 VALUES
(recipe_seq.NEXTVAL, ...) RETURNING RecipeID`, then commit.  The sequence is
modelled by `seq`, the next value it will yield; the result is the new table,
the advanced sequence, and the generated id. -/
def createRecipeSQL (recipes : List Recipe) (seq : Nat) (body : RecipeBody) :
    (List Recipe × Nat) × Option Nat :=
  ((recipes ++ [⟨seq, body.recipeName, body.cuisine, body.cookingTime, body.userID⟩],
    seq + 1), some seq)

/-- appService.js lines 155-160: `DELETE FROM RecipeCreated2 WHERE RecipeID =
:recipeID`, then commit; yields the new table and `rowsAffected`. -/
def deleteRecipeSQL (recipes : List Recipe) (recipeID : Nat) : List Recipe × Nat :=
  (recipes.filter (fun r => !(r.recipeID == recipeID)),
   (recipes.filter (fun r => r.recipeID == recipeID)).length)

/-- appService.js lines 251-264: `UPDATE RecipeCreated2 SET ... WHERE RecipeID
= :recipeID`, then commit; yields the new table and `rowsAffected`. -/
def updateRecipeSQL (recipes : List Recipe) (recipe : Recipe) : List Recipe × Nat :=
  (recipes.map (fun r => if r.recipeID == recipe.recipeID then recipe else r),
   (recipes.filter (fun r => r.recipeID == recipe.recipeID)).length)

/-- The scalar subquery `SELECT MAX(Points) FROM User1 WHERE Points <= up`:
`none` models SQL NULL (no tier threshold is ≤ `up`). -/
def maxPointsLE (tiers : List Tier) (up : Nat) : Option Nat :=
  match tiers with
  | [] => none
  | t :: ts =>
    match maxPointsLE ts up with
    | none => if t.points ≤ up then some t.points else none
    | some m => if t.points ≤ up then some (max t.points m) else some m

/-- The join fragment shared by the two user SELECTs: `User2 u JOIN User1 p
ON u.Points >= p.Points ... AND p.Points = (SELECT MAX(Points) FROM User1
WHERE u.Points >= Points)` — the rows one user `u` contributes.  A NULL
subquery result (no tier qualifies) satisfies no equality, so the user
yields no row. -/
def rankJoin (tiers : List Tier) (u : User) : List UserRow :=
  (tiers.filter (fun p =>
    u.points ≥ p.points && maxPointsLE tiers u.points == some p.points)).map
    (fun p => ⟨u.userID, u.userName, u.points, p.userLevel⟩)

/-- appService.js lines 173-182: the rank join restricted to the given
UserID. -/
def fetchUserSQL (users : List User) (tiers : List Tier) (uid : Nat) : List UserRow :=
  users.flatMap (fun u => if u.userID == uid then rankJoin tiers u else [])

/-- appService.js lines 195-204: the rank join for every user, ordered by
UserID. -/
def fetchAllUsersSQL (users : List User) (tiers : List Tier) : List UserRow :=
  List.insertionSort userRowLE (users.flatMap (rankJoin tiers))

/-- appService.js lines 217-222: UserPantries joined with SavedPantry on
PantryID, restricted to the given UserID. -/
def fetchPantriesSQL (userPantries : List UserPantry) (savedPantries : List SavedPantry)
    (uid : Nat) : List PantryRow :=
  userPantries.flatMap (fun u =>
    if u.userID == uid then
      (savedPantries.filter (fun p => u.pantryID == p.pantryID)).map
        (fun p => ⟨u.userID, u.pantryID, p.category⟩)
    else [])

/-- appService.js lines 233-238: RecipeCreated2 joined with Users2 on UserID,
restricted to the given RecipeID. -/
def fetchRecipeByIDSQL (recipes : List Recipe) (accounts : List Account)
    (recipeID : Nat) : List RecipeJoinRow :=
  (recipes.filter (fun r => r.recipeID == recipeID)).flatMap (fun r =>
    (accounts.filter (fun u => r.userID == u.userID)).map (fun u =>
      ⟨r.recipeID, r.recipeName, r.cuisine, r.cookingTime, u.userName⟩))

/-! ### Executors (appService.js functions: withOracleDB + catch-to-default) -/

/-- appService.js lines 81-93 (`fetchAllLocations`). -/
def fetchAllLocations (env : DBEnv) (locations : List Location) : List Location :=
  runCatch env (fetchAllLocationsSQL locations) []

/-- appService.js lines 96-110 (`fetchAllRecipes`). -/
def fetchAllRecipes (env : DBEnv) (recipes : List Recipe) (levels : List CuisineLevel)
    (accounts : List Account) : List FullRecipeRow :=
  runCatch env (fetchAllRecipesSQL recipes levels accounts) []

/-- appService.js lines 113-128 (`fetchLikedRecipes`). -/
def fetchLikedRecipes (env : DBEnv) (likes : List LikeRow) (recipes : List Recipe)
    (accounts : List Account) : List RecipeJoinRow :=
  runCatch env (fetchLikedRecipesSQL likes recipes accounts) []

/-- appService.js lines 131-150 (`createRecipe`): returns the generated id, or
`null` (here `none`) on failure; the store is unchanged on failure. -/
def createRecipe (env : DBEnv) (recipes : List Recipe) (seq : Nat) (body : RecipeBody) :
    (List Recipe × Nat) × Option Nat :=
  runCatch env (createRecipeSQL recipes seq body) ((recipes, seq), none)

/-- appService.js lines 153-165 (`deleteRecipe`): returns `rowsAffected`, or 0
on failure; the store is unchanged on failure. -/
def deleteRecipe (env : DBEnv) (recipes : List Recipe) (recipeID : Nat) :
    List Recipe × Nat :=
  runCatch env (deleteRecipeSQL recipes recipeID) (recipes, 0)

/-- appService.js lines 171-187 (`fetchUser`): declared with the single
parameter `UserID`; the route passes a second argument which JavaScript call
semantics discard. -/
def fetchUser (env : DBEnv) (users : List User) (tiers : List Tier) (UserID : Nat) :
    List UserRow :=
  runCatch env (fetchUserSQL users tiers UserID) []

/-- appService.js lines 193-209 (`fetchAllUsers`): its declared parameter
`UserID` — which the route fills with the parsed `columns` query parameter —
is never read by the body. -/
def fetchAllUsers (env : DBEnv) (users : List User) (tiers : List Tier)
    (UserID : Option (List String)) : List UserRow :=
  runCatch env (fetchAllUsersSQL users tiers) []

/-- appService.js lines 215-227 (`fetchPantries`). -/
def fetchPantries (env : DBEnv) (userPantries : List UserPantry)
    (savedPantries : List SavedPantry) (UserID : Nat) : List PantryRow :=
  runCatch env (fetchPantriesSQL userPantries savedPantries UserID) []

/-- appService.js lines 231-244 (`fetchRecipeByID`). -/
def fetchRecipeByID (env : DBEnv) (recipes : List Recipe) (accounts : List Account)
    (RecipeID : Nat) : List RecipeJoinRow :=
  runCatch env (fetchRecipeByIDSQL recipes accounts RecipeID) []

/-- appService.js lines 249-271 (`updateRecipe`): returns `rowsAffected`, or 0
on failure; the store is unchanged on failure. -/
def updateRecipe (env : DBEnv) (recipes : List Recipe) (recipe : Recipe) :
    List Recipe × Nat :=
  runCatch env (updateRecipeSQL recipes recipe) (recipes, 0)

/-! ### Functions the controller calls that are absent from appService.js -/

/-- Row shape of the spec-modelled `fetchRecipes`: the key it is ordered by,
plus the selected (column name, rendered value) cells, plus the joined image
fields when the image join is on. -/
structure RecipeQueryRow where
  recipeID : Nat
  cells : List (String × String)
deriving DecidableEq, Repr

/-- ORDER BY RecipeID on query rows. -/
def qRowLE (a b : RecipeQueryRow) : Prop := a.recipeID ≤ b.recipeID

instance : DecidableRel qRowLE := fun a b => Nat.decLe a.recipeID b.recipeID

instance : IsTotal RecipeQueryRow qRowLE :=
  ⟨fun a b => Nat.le_total a.recipeID b.recipeID⟩

instance : IsTrans RecipeQueryRow qRowLE :=
  ⟨fun _ _ _ h1 h2 => Nat.le_trans h1 h2⟩

/-- The fixed default column set of the recipe SELECT. -/
def defaultRecipeColumns : List String :=
  ["RecipeID", "RecipeName", "Cuisine", "CookingTime", "UserID"]

/-- Rendering of one selected column of a recipe row. -/
def recipeCell (r : Recipe) (c : String) : String :=
  if c = "RecipeID" then toString r.recipeID
  else if c = "RecipeName" then r.recipeName
  else if c = "Cuisine" then r.cuisine
  else if c = "CookingTime" then r.cookingTime
  else if c = "UserID" then toString r.userID
  else ""

/-- The WHERE clause of the recipe SELECT: restricted to a single RecipeID
and/or to a cuisine equal to the filter, when those are supplied. -/
def recipeMatches (cuisineFilter : Option String) (id : Option Nat) (r : Recipe) : Bool :=
  (match id with
   | some i => r.recipeID == i
   | none => true) &&
  (match cuisineFilter with
   | some c => r.cuisine == c
   | none => true)

/-- Modelled from the spec: `fetchRecipes` is called by the GET /recipes route
(appController.js line 60) but its definition is absent from
src/server/appService.js.  Spec §4.2: builds a SELECT whose column list
defaults to a fixed set of recipe attributes, optionally narrowed to the
caller-specified column list; optionally joins images and filters to rows
lacking captions; optionally restricts to a single RecipeID or a cuisine
equal to the filter; returns an ordered sequence of rows (order by RecipeID);
returns an empty sequence on no match or on query failure. -/
def fetchRecipesSQL (columns : Option (List String)) (cuisineFilter : Option String)
    (id : Option Nat) (includeImages captionless : Bool)
    (recipes : List Recipe) (images : List Image) : List RecipeQueryRow :=
  let cols := columns.getD defaultRecipeColumns
  let base := recipes.filter (recipeMatches cuisineFilter id)
  let rows :=
    if includeImages then
      base.flatMap (fun r =>
        ((images.filter (fun im => im.recipeID == r.recipeID)).filter
          (fun im => !captionless || im.caption == none)).map (fun im =>
          ⟨r.recipeID, cols.map (fun c => (c, recipeCell r c)) ++
            [("URL", im.url), ("Caption", im.caption.getD "")]⟩))
    else
      base.map (fun r => ⟨r.recipeID, cols.map (fun c => (c, recipeCell r c))⟩)
  List.insertionSort qRowLE rows

/-- Modelled from the spec: the `fetchRecipes` executor, wrapping the SELECT
in the catch-to-empty pattern shared by every list-returning executor
(spec §4.2, §7). -/
def fetchRecipes (env : DBEnv) (columns : Option (List String))
    (cuisineFilter : Option String) (id : Option Nat) (includeImages captionless : Bool)
    (recipes : List Recipe) (images : List Image) : List RecipeQueryRow :=
  runCatch env (fetchRecipesSQL columns cuisineFilter id includeImages captionless
    recipes images) []

/-- Modelled from the spec: `insertStep` is called by the POST /steps/:id
route (appController.js line 192) but its definition is absent from
src/server/appService.js.  Spec §4.2: inserts one Step row (and commits);
like the other scalar executors it reports failure through a falsy result,
leaving the store unchanged. -/
def insertStep (env : DBEnv) (stepNumber : Nat) (instruction : String) (recipeID : Nat)
    (steps : List Step) : List Step × Bool :=
  runCatch env (steps ++ [⟨recipeID, stepNumber, instruction⟩], true) (steps, false)

/-! ### Route handlers (appController.js) -/

/-- The observable HTTP outcome of a handler: status code plus the JSON
envelope shape (`{data: rows}`, `{error: msg}`, `{message: msg}`, or
`{message: msg, response: id}` for POST /recipe). -/
inductive Response (ρ : Type) where
  | rows (status : Nat) (rows : List ρ)
  | failure (status : Nat) (msg : String)
  | message (status : Nat) (msg : String)
  | created (status : Nat) (msg : String) (id : Nat)
deriving DecidableEq, Repr

/-- The HTTP status of a response. -/
def Response.statusOf {ρ : Type} : Response ρ → Nat
  | .rows s _ => s
  | .failure s _ => s
  | .message s _ => s
  | .created s _ _ => s

/-- A response whose body is an `{error: ...}` envelope. -/
def Response.isErrorBody {ρ : Type} : Response ρ → Bool
  | .failure _ _ => true
  | _ => false

/-- appController.js lines 71-79, GET /recipe/:id. -/
def getRecipeByIdRoute (env : DBEnv) (recipes : List Recipe) (accounts : List Account)
    (id : Nat) : Response RecipeJoinRow :=
  let recipe := fetchRecipeByID env recipes accounts id
  if recipe.length = 0 then .failure 404 "Recipe not found"
  else .rows 200 recipe

/-- appController.js lines 218-223, GET /user/:id: parses the `columns` query
parameter, then calls `fetchUser(UserID, columns)` — whose declaration takes
only `UserID`, so JavaScript discards the second argument — and always
responds 200 with a `{data: ...}` envelope. -/
def getUserRoute (env : DBEnv) (users : List User) (tiers : List Tier) (id : Nat)
    (columnsParam : Option String) : Response UserRow :=
  let columns := columnsParam.map (fun s => s.splitOn ",")
  .rows 200 (fetchUser env users tiers id)

/-- appController.js lines 228-232, GET /users: parses the `columns` query
parameter, passes it as `fetchAllUsers`'s only argument (the unused `UserID`
parameter), and always responds 200 with a `{data: ...}` envelope. -/
def getUsersRoute (env : DBEnv) (users : List User) (tiers : List Tier)
    (columnsParam : Option String) : Response UserRow :=
  let columns := columnsParam.map (fun s => s.splitOn ",")
  .rows 200 (fetchAllUsers env users tiers columns)

/-- appController.js lines 261-265, GET /pantry/:id: always responds 200 with
a `{data: ...}` envelope. -/
def getPantryRoute (env : DBEnv) (userPantries : List UserPantry)
    (savedPantries : List SavedPantry) (id : Nat) : Response PantryRow :=
  .rows 200 (fetchPantries env userPantries savedPantries id)

/-- appController.js lines 116-124, POST /recipe: a truthy executor result —
a non-null, non-zero generated id — gives 201, any other gives 500. -/
def postRecipeRoute (env : DBEnv) (recipes : List Recipe) (seq : Nat)
    (body : RecipeBody) : (List Recipe × Nat) × Response Nat :=
  let (store, response) := createRecipe env recipes seq body
  match response with
  | some id => if id == 0 then (store, .failure 500 "Failed to create recipe")
               else (store, .created 201 "Recipe created" id)
  | none => (store, .failure 500 "Failed to create recipe")

/-- appController.js lines 274-283, PUT /recipe/:id. -/
def putRecipeRoute (env : DBEnv) (recipes : List Recipe) (id : Nat)
    (body : RecipeBody) : List Recipe × Response Unit :=
  let recipe : Recipe := ⟨id, body.recipeName, body.cuisine, body.cookingTime, body.userID⟩
  let (store, rowsAffected) := updateRecipe env recipes recipe
  if rowsAffected > 0 then (store, .message 200 "Recipe updated")
  else (store, .failure 404 "Recipe not found or not updated")

/-- appController.js lines 129-137, the first handler registered for
DELETE /recipe/:id. -/
def deleteRecipeRoute (env : DBEnv) (recipes : List Recipe) (id : Nat) :
    List Recipe × Response Unit :=
  let (store, rowsAffected) := deleteRecipe env recipes id
  if rowsAffected > 0 then (store, .message 200 "Recipe deleted")
  else (store, .failure 404 "Recipe not found or not deleted")

/-- appController.js lines 288-296, the second handler registered for
DELETE /recipe/:id. -/
def deleteRecipeRouteSecond (env : DBEnv) (recipes : List Recipe) (id : Nat) :
    List Recipe × Response Unit :=
  let (store, rowsAffected) := deleteRecipe env recipes id
  if rowsAffected > 0 then (store, .message 200 "Recipe deleted")
  else (store, .failure 404 "Recipe not found or not deleted")

/-- The steps a successful run of the POST /steps/:id loop inserts for the
instructions, numbered from `i + 1` onward (the loop index `i` starts at 0). -/
def numberedSteps (recipeID : Nat) : Nat → List String → List Step
  | _, [] => []
  | i, instr :: rest => ⟨recipeID, i + 1, instr⟩ :: numberedSteps recipeID (i + 1) rest

/-- appController.js lines 191-198, the loop of POST /steps/:id: calls
`insertStep(i + 1, steps[i], recipeID)` for i = 0, 1, ... in order and breaks
on the first falsy response.  `envs i` is the database outcome of the i-th
call.  Returns the final store and the `success` flag. -/
def stepsLoop (envs : Nat → DBEnv) (recipeID : Nat) :
    Nat → List String → List Step → List Step × Bool
  | _, [], store => (store, true)
  | i, instr :: rest, store =>
    match insertStep (envs i) (i + 1) instr recipeID store with
    | (store2, true) => stepsLoop envs recipeID (i + 1) rest store2
    | (store2, false) => (store2, false)

/-- appController.js lines 186-205, POST /steps/:id. -/
def postStepsRoute (envs : Nat → DBEnv) (recipeID : Nat) (steps : List String)
    (store : List Step) : List Step × Response Unit :=
  let (store2, success) := stepsLoop envs recipeID 0 steps store
  if success then (store2, .message 201 "Steps inserted successfully")
  else (store2, .failure 500 "Failed to insert all steps")

/-! ### Helper lemmas -/

theorem maxPointsLE_le : ∀ (tiers : List Tier) (up m : Nat),
    maxPointsLE tiers up = some m → m ≤ up := by
  intro tiers up
  induction tiers with
  | nil => intro m h; simp [maxPointsLE] at h
  | cons t ts ih =>
    intro m h
    cases hr : maxPointsLE ts up with
    | none =>
      simp only [maxPointsLE, hr] at h
      by_cases ht : t.points ≤ up
      · rw [if_pos ht] at h
        injection h with h2
        omega
      · rw [if_neg ht] at h
        exact absurd h (by simp)
    | some m2 =>
      simp only [maxPointsLE, hr] at h
      have hm2 := ih m2 hr
      by_cases ht : t.points ≤ up
      · rw [if_pos ht] at h
        injection h with h2
        simp only [Nat.max_def] at h2
        split at h2 <;> omega
      · rw [if_neg ht] at h
        injection h with h2
        omega

theorem le_maxPointsLE : ∀ (tiers : List Tier) (up : Nat) (t : Tier),
    t ∈ tiers → t.points ≤ up →
    ∃ m, maxPointsLE tiers up = some m ∧ t.points ≤ m := by
  intro tiers up
  induction tiers with
  | nil => intro t ht; cases ht
  | cons a ts ih =>
    intro t ht hle
    rcases List.mem_cons.mp ht with rfl | hmem
    · cases hr : maxPointsLE ts up with
      | none =>
        exact ⟨t.points, by simp only [maxPointsLE, hr]; rw [if_pos hle], Nat.le_refl _⟩
      | some m2 =>
        exact ⟨max t.points m2, by simp only [maxPointsLE, hr]; rw [if_pos hle],
          Nat.le_max_left _ _⟩
    · rcases ih t hmem hle with ⟨m, hm, hlm⟩
      by_cases ha : a.points ≤ up
      · exact ⟨max a.points m, by simp only [maxPointsLE, hm]; rw [if_pos ha],
          Nat.le_trans hlm (Nat.le_max_right _ _)⟩
      · exact ⟨m, by simp only [maxPointsLE, hm]; rw [if_neg ha], hlm⟩

theorem maxPointsLE_of_exact (tiers : List Tier) (up : Nat) (t : Tier) (ht : t ∈ tiers)
    (heq : t.points = up) : maxPointsLE tiers up = some up := by
  rcases le_maxPointsLE tiers up t ht (by omega) with ⟨m, hm, hlm⟩
  have hle := maxPointsLE_le tiers up m hm
  have : m = up := by omega
  subst this
  exact hm

theorem rankJoin_mem (tiers : List Tier) (u : User) (row : UserRow)
    (h : row ∈ rankJoin tiers u) :
    ∃ t ∈ tiers, row = ⟨u.userID, u.userName, u.points, t.userLevel⟩ ∧
      t.points ≤ u.points ∧
      ∀ t2 ∈ tiers, t2.points ≤ u.points → t2.points ≤ t.points := by
  rcases List.mem_map.mp h with ⟨t, htf, hrow⟩
  rcases List.mem_filter.mp htf with ⟨htm, hcond⟩
  simp only [Bool.and_eq_true, decide_eq_true_eq, beq_iff_eq, ge_iff_le] at hcond
  obtain ⟨hup, hmax⟩ := hcond
  refine ⟨t, htm, hrow.symm, hup, ?_⟩
  intro t2 ht2 hle2
  rcases le_maxPointsLE tiers u.points t2 ht2 hle2 with ⟨m, hm, hlm⟩
  rw [hmax] at hm
  injection hm with hm2
  omega

theorem rankJoin_boundary (tiers : List Tier) (u : User) (t : Tier) (ht : t ∈ tiers)
    (heq : t.points = u.points) :
    (⟨u.userID, u.userName, u.points, t.userLevel⟩ : UserRow) ∈ rankJoin tiers u := by
  apply List.mem_map.mpr
  refine ⟨t, List.mem_filter.mpr ⟨ht, ?_⟩, rfl⟩
  simp only [Bool.and_eq_true, decide_eq_true_eq, beq_iff_eq, ge_iff_le]
  exact ⟨by omega, by rw [maxPointsLE_of_exact tiers u.points t ht heq, heq]⟩

theorem insertStep_of_ok (env : DBEnv) (n : Nat) (s : String) (rid : Nat)
    (store : List Step) (h : env.ok) :
    insertStep env n s rid store = (store ++ [⟨rid, n, s⟩], true) :=
  runCatch_of_ok env _ _ h

theorem insertStep_of_fail (env : DBEnv) (n : Nat) (s : String) (rid : Nat)
    (store : List Step) (h : ¬ env.ok) :
    insertStep env n s rid store = (store, false) :=
  runCatch_of_fail env _ _ h

/-! ### Claim theorems -/

/-- C6: for every action passed to `withOracleDB`, once a connection is
acquired it is released on every exit path; an error raised by the action
propagates to the caller unchanged (release and a failing release never mask
it), and a failing release is itself logged. -/
theorem withOracleDB_scoped_release {α : Type} (acquire : Except DBErr Unit)
    (action : Unit → Except DBErr α) (closeFails : Bool) (h : acquire = .ok ()) :
    DBEvent.released ∈ (withOracleDB acquire action closeFails).2 ∧
    (withOracleDB acquire action closeFails).1 = action () ∧
    (∀ e, action () = .error e → (withOracleDB acquire action closeFails).1 = .error e) ∧
    (closeFails = true → DBEvent.closeErrLogged ∈ (withOracleDB acquire action closeFails).2) := by
  subst h
  cases ha : action () <;> cases closeFails <;>
    simp [withOracleDB, ha]

/-- Witness for C6 at a concrete failing action with a failing release. -/
theorem withOracleDB_scoped_release_witness :
    DBEvent.released ∈
      (withOracleDB (.ok ()) (fun _ => (.error .execFail : Except DBErr Nat)) true).2 ∧
    (withOracleDB (.ok ()) (fun _ => (.error .execFail : Except DBErr Nat)) true).1 =
      .error .execFail ∧
    (∀ e, (.error .execFail : Except DBErr Nat) = .error e →
      (withOracleDB (.ok ()) (fun _ => (.error .execFail : Except DBErr Nat)) true).1 =
        .error e) ∧
    (true = true → DBEvent.closeErrLogged ∈
      (withOracleDB (.ok ()) (fun _ => (.error .execFail : Except DBErr Nat)) true).2) :=
  withOracleDB_scoped_release (.ok ()) (fun _ => (.error .execFail : Except DBErr Nat))
    true rfl

/-- C7: when the connection cannot be acquired or the statement fails, every
executor catches the error and returns its safe default — the empty sequence
for the list-returning executors, `none` for createRecipe, 0 rows affected
for deleteRecipe and updateRecipe — and no error value escapes the executor. -/
theorem executors_catch_to_default (env : DBEnv) (locations : List Location)
    (recipes : List Recipe) (levels : List CuisineLevel) (accounts : List Account)
    (likes : List LikeRow) (users : List User) (tiers : List Tier)
    (userPantries : List UserPantry) (savedPantries : List SavedPantry)
    (cols : Option (List String)) (uid rid seq : Nat) (body : RecipeBody)
    (recipe : Recipe) (h : ¬ env.ok) :
    fetchAllLocations env locations = [] ∧
    fetchAllRecipes env recipes levels accounts = [] ∧
    fetchLikedRecipes env likes recipes accounts = [] ∧
    fetchUser env users tiers uid = [] ∧
    fetchAllUsers env users tiers cols = [] ∧
    fetchPantries env userPantries savedPantries uid = [] ∧
    fetchRecipeByID env recipes accounts rid = [] ∧
    (createRecipe env recipes seq body).2 = none ∧
    (deleteRecipe env recipes rid).2 = 0 ∧
    (updateRecipe env recipes recipe).2 = 0 := by
  refine ⟨runCatch_of_fail env _ _ h, runCatch_of_fail env _ _ h,
    runCatch_of_fail env _ _ h, runCatch_of_fail env _ _ h,
    runCatch_of_fail env _ _ h, runCatch_of_fail env _ _ h,
    runCatch_of_fail env _ _ h, ?_, ?_, ?_⟩
  · rw [createRecipe, runCatch_of_fail env _ _ h]
  · rw [deleteRecipe, runCatch_of_fail env _ _ h]
  · rw [updateRecipe, runCatch_of_fail env _ _ h]

/-- Witness for C7 at a concrete failing environment. -/
theorem executors_catch_to_default_witness :
    fetchAllLocations envConnFail [] = [] ∧
    fetchAllRecipes envConnFail [] [] [] = [] ∧
    fetchLikedRecipes envConnFail [] [] [] = [] ∧
    fetchUser envConnFail [] [] 1 = [] ∧
    fetchAllUsers envConnFail [] [] none = [] ∧
    fetchPantries envConnFail [] [] 1 = [] ∧
    fetchRecipeByID envConnFail [] [] 1 = [] ∧
    (createRecipe envConnFail [] 1 ⟨"Pasta Verde", "Italian", "00:30:00", 3⟩).2 = none ∧
    (deleteRecipe envConnFail [] 1).2 = 0 ∧
    (updateRecipe envConnFail [] ⟨1, "Pasta Verde", "Italian", "00:30:00", 3⟩).2 = 0 :=
  executors_catch_to_default envConnFail [] [] [] [] [] [] [] [] [] none 1 1 1
    ⟨"Pasta Verde", "Italian", "00:30:00", 3⟩ ⟨1, "Pasta Verde", "Italian", "00:30:00", 3⟩
    (by decide)

/-- C8: after a first `deleteRecipe(id)` call that successfully deleted the
row, a second call on the resulting store returns an affected-row count of 0,
whatever the second call's database outcome. -/
theorem deleteRecipe_second_returns_zero (env1 env2 : DBEnv) (recipes : List Recipe)
    (recipeID : Nat) (h1 : env1.ok) (h2 : 0 < (deleteRecipe env1 recipes recipeID).2) :
    (deleteRecipe env2 (deleteRecipe env1 recipes recipeID).1 recipeID).2 = 0 := by
  have hfirst : deleteRecipe env1 recipes recipeID = deleteRecipeSQL recipes recipeID :=
    runCatch_of_ok env1 _ _ h1
  rw [hfirst]
  have hempty : ((deleteRecipeSQL recipes recipeID).1.filter
      (fun r => r.recipeID == recipeID)) = [] := by
    simp only [deleteRecipeSQL, List.filter_filter]
    apply List.filter_eq_nil_iff.mpr
    intro r _
    cases hid : r.recipeID == recipeID <;> simp [hid]
  rcases runCatch_cases env2 (deleteRecipeSQL (deleteRecipeSQL recipes recipeID).1 recipeID)
      ((deleteRecipeSQL recipes recipeID).1, 0) with hc | hc
  · rw [deleteRecipe, hc]
    show ((deleteRecipeSQL recipes recipeID).1.filter
      (fun r => r.recipeID == recipeID)).length = 0
    rw [hempty]
    rfl
  · rw [deleteRecipe, hc]

/-- Witness for C8: deleting recipe 1 from a one-row store, then again. -/
theorem deleteRecipe_second_returns_zero_witness :
    (deleteRecipe envOK (deleteRecipe envOK [⟨1, "Pasta Verde", "Italian", "00:30:00", 3⟩] 1).1
      1).2 = 0 :=
  deleteRecipe_second_returns_zero envOK envOK [⟨1, "Pasta Verde", "Italian", "00:30:00", 3⟩]
    1 (by decide) (by decide)

/-- C9: the `columns` query parameter accepted by GET /user/:id and GET /users
has no effect: `fetchUser`'s declaration takes no second parameter (JavaScript
discards the route's second argument) and `fetchAllUsers` never reads its
single parameter, so for every database state any two values of the parameter
produce the same response. -/
theorem columns_param_no_effect (env : DBEnv) (users : List User) (tiers : List Tier)
    (uid : Nat) (c1 c2 : Option String) (cols1 cols2 : Option (List String)) :
    getUserRoute env users tiers uid c1 = getUserRoute env users tiers uid c2 ∧
    getUsersRoute env users tiers c1 = getUsersRoute env users tiers c2 ∧
    fetchAllUsers env users tiers cols1 = fetchAllUsers env users tiers cols2 :=
  ⟨rfl, rfl, rfl⟩

/-- C10: the two handlers registered for DELETE /recipe/:id are extensionally
equal, and each maps a positive affected-row count to 200 "Recipe deleted"
and any other count to 404 "Recipe not found or not deleted", so the
duplicate registration does not change observable behaviour. -/
theorem delete_handlers_equivalent (env : DBEnv) (recipes : List Recipe) (id : Nat) :
    deleteRecipeRoute env recipes id = deleteRecipeRouteSecond env recipes id ∧
    (0 < (deleteRecipe env recipes id).2 →
      (deleteRecipeRoute env recipes id).2 = .message 200 "Recipe deleted") ∧
    ((deleteRecipe env recipes id).2 = 0 →
      (deleteRecipeRoute env recipes id).2 =
        .failure 404 "Recipe not found or not deleted") := by
  refine ⟨rfl, ?_, ?_⟩ <;>
    · intro h
      rcases hd : deleteRecipe env recipes id with ⟨st, n⟩
      rw [hd] at h
      simp only [deleteRecipeRoute, hd]
      simp at h
      simp [h]

/-- Witness for C10: one store where the delete matches a row, one where it
does not. -/
theorem delete_handlers_equivalent_witness :
    (deleteRecipeRoute envOK [⟨1, "Pasta Verde", "Italian", "00:30:00", 3⟩] 1).2 =
      .message 200 "Recipe deleted" ∧
    (deleteRecipeRoute envOK [] 1).2 = .failure 404 "Recipe not found or not deleted" :=
  ⟨(delete_handlers_equivalent envOK [⟨1, "Pasta Verde", "Italian", "00:30:00", 3⟩] 1).2.1
      (by decide),
   (delete_handlers_equivalent envOK [] 1).2.2 (by decide)⟩

/-- C4: under a successful database round trip, every row `fetchUser` or
`fetchAllUsers` returns carries the level of the tier whose points threshold
is the greatest threshold not exceeding the user's points; and in the
boundary case where a user's points exactly equal a tier threshold, that
tier's row is returned for the user. -/
theorem fetchUser_rank_greatest_le (env : DBEnv) (users : List User) (tiers : List Tier)
    (uid : Nat) (cols : Option (List String)) (h : env.ok) :
    (∀ row ∈ fetchUser env users tiers uid, ∃ u ∈ users, ∃ t ∈ tiers,
       u.userID = uid ∧ row = ⟨u.userID, u.userName, u.points, t.userLevel⟩ ∧
       t.points ≤ u.points ∧
       ∀ t2 ∈ tiers, t2.points ≤ u.points → t2.points ≤ t.points) ∧
    (∀ row ∈ fetchAllUsers env users tiers cols, ∃ u ∈ users, ∃ t ∈ tiers,
       row = ⟨u.userID, u.userName, u.points, t.userLevel⟩ ∧
       t.points ≤ u.points ∧
       ∀ t2 ∈ tiers, t2.points ≤ u.points → t2.points ≤ t.points) ∧
    (∀ u ∈ users, u.userID = uid → ∀ t ∈ tiers, t.points = u.points →
       (⟨u.userID, u.userName, u.points, t.userLevel⟩ : UserRow) ∈
         fetchUser env users tiers uid) ∧
    (∀ u ∈ users, ∀ t ∈ tiers, t.points = u.points →
       (⟨u.userID, u.userName, u.points, t.userLevel⟩ : UserRow) ∈
         fetchAllUsers env users tiers cols) := by
  have hU : fetchUser env users tiers uid = fetchUserSQL users tiers uid :=
    runCatch_of_ok env _ _ h
  have hA : fetchAllUsers env users tiers cols = fetchAllUsersSQL users tiers :=
    runCatch_of_ok env _ _ h
  refine ⟨?_, ?_, ?_, ?_⟩
  · intro row hrow
    rw [hU] at hrow
    rcases List.mem_flatMap.mp hrow with ⟨u, hu, hmem⟩
    by_cases hid : u.userID == uid
    · rw [if_pos hid] at hmem
      rcases rankJoin_mem tiers u row hmem with ⟨t, htm, hrw, hle, hmax⟩
      exact ⟨u, hu, t, htm, by simpa using hid, hrw, hle, hmax⟩
    · rw [if_neg hid] at hmem
      cases hmem
  · intro row hrow
    rw [hA] at hrow
    have hrow2 := (List.mem_insertionSort userRowLE).mp hrow
    rcases List.mem_flatMap.mp hrow2 with ⟨u, hu, hmem⟩
    rcases rankJoin_mem tiers u row hmem with ⟨t, htm, hrw, hle, hmax⟩
    exact ⟨u, hu, t, htm, hrw, hle, hmax⟩
  · intro u hu huid t ht heq
    rw [hU]
    apply List.mem_flatMap.mpr
    refine ⟨u, hu, ?_⟩
    rw [if_pos (by simpa using huid)]
    exact rankJoin_boundary tiers u t ht heq
  · intro u hu t ht heq
    rw [hA]
    apply (List.mem_insertionSort userRowLE).mpr
    apply List.mem_flatMap.mpr
    exact ⟨u, hu, rankJoin_boundary tiers u t ht heq⟩

/-- Witness for C4 at the boundary: a user with exactly 100 points against
tiers at 0, 100 and 200 points selects the 100 tier ("Silver"), and a user
with exactly 200 points selects the 200 tier ("Gold"). -/
theorem fetchUser_rank_greatest_le_witness :
    (⟨7, "Arthur", 100, "Silver"⟩ : UserRow) ∈
      fetchUser envOK [⟨7, "Arthur", 100⟩] [⟨0, "Bronze"⟩, ⟨100, "Silver"⟩, ⟨200, "Gold"⟩] 7 ∧
    (⟨8, "Trillian", 200, "Gold"⟩ : UserRow) ∈
      fetchAllUsers envOK [⟨8, "Trillian", 200⟩]
        [⟨0, "Bronze"⟩, ⟨100, "Silver"⟩, ⟨200, "Gold"⟩] none := by
  constructor
  · exact (fetchUser_rank_greatest_le envOK [⟨7, "Arthur", 100⟩]
        [⟨0, "Bronze"⟩, ⟨100, "Silver"⟩, ⟨200, "Gold"⟩] 7 none (by decide)).2.2.1
      ⟨7, "Arthur", 100⟩ (by decide) rfl ⟨100, "Silver"⟩ (by decide) rfl
  · exact (fetchUser_rank_greatest_le envOK [⟨8, "Trillian", 200⟩]
        [⟨0, "Bronze"⟩, ⟨100, "Silver"⟩, ⟨200, "Gold"⟩] 8 none (by decide)).2.2.2
      ⟨8, "Trillian", 200⟩ (by decide) ⟨200, "Gold"⟩ (by decide) rfl

theorem stepsLoop_all_ok (envs : Nat → DBEnv) (rid : Nat) :
    ∀ (steps : List String) (i : Nat) (store : List Step),
    (∀ j, j < steps.length → (envs (i + j)).ok) →
    stepsLoop envs rid i steps store = (store ++ numberedSteps rid i steps, true) := by
  intro steps
  induction steps with
  | nil => intro i store _; simp [stepsLoop, numberedSteps]
  | cons s rest ih =>
    intro i store h
    have h0 : (envs i).ok := by simpa using h 0 (Nat.succ_pos _)
    have hnext : ∀ j, j < rest.length → (envs (i + 1 + j)).ok := by
      intro j hj
      have := h (j + 1) (by simpa using Nat.succ_lt_succ hj)
      simpa [show i + (j + 1) = i + 1 + j by omega] using this
    rw [stepsLoop, insertStep_of_ok (envs i) (i + 1) s rid store h0]
    show stepsLoop envs rid (i + 1) rest (store ++ [⟨rid, i + 1, s⟩]) =
      (store ++ numberedSteps rid i (s :: rest), true)
    rw [ih (i + 1) (store ++ [(⟨rid, i + 1, s⟩ : Step)]) hnext]
    simp [numberedSteps]

theorem stepsLoop_first_fail (envs : Nat → DBEnv) (rid : Nat) :
    ∀ (steps : List String) (k i : Nat) (store : List Step),
    k < steps.length →
    (∀ j, j < k → (envs (i + j)).ok) →
    ¬ (envs (i + k)).ok →
    stepsLoop envs rid i steps store =
      (store ++ numberedSteps rid i (steps.take k), false) := by
  intro steps
  induction steps with
  | nil => intro k i store hk; simp at hk
  | cons s rest ih =>
    intro k i store hk hok hfail
    cases k with
    | zero =>
      have hf : ¬ (envs i).ok := by simpa using hfail
      rw [stepsLoop, insertStep_of_fail (envs i) (i + 1) s rid store hf]
      simp [numberedSteps]
    | succ k2 =>
      have h0 : (envs i).ok := by simpa using hok 0 (Nat.succ_pos _)
      have hnext : ∀ j, j < k2 → (envs (i + 1 + j)).ok := by
        intro j hj
        have := hok (j + 1) (Nat.succ_lt_succ hj)
        simpa [show i + (j + 1) = i + 1 + j by omega] using this
      have hfail2 : ¬ (envs (i + 1 + k2)).ok := by
        simpa [show i + (k2 + 1) = i + 1 + k2 by omega] using hfail
      rw [stepsLoop, insertStep_of_ok (envs i) (i + 1) s rid store h0]
      show stepsLoop envs rid (i + 1) rest (store ++ [⟨rid, i + 1, s⟩]) =
        (store ++ numberedSteps rid i (List.take (k2 + 1) (s :: rest)), false)
      rw [ih k2 (i + 1) (store ++ [(⟨rid, i + 1, s⟩ : Step)])
        (Nat.lt_of_succ_lt_succ hk) hnext hfail2]
      simp [numberedSteps]

/-- C5: the POST /steps/:id handler calls insertStep once per instruction in
list order with step numbers 1, 2, ..., n; when every insert succeeds it
responds 201 and the store gains exactly those numbered steps in order, and
on the first failed insert (the k-th, 0-based) it aborts the remaining
inserts and responds 500, while the k steps inserted before the failure
remain committed in the store. -/
theorem postSteps_ordered_abort (envs : Nat → DBEnv) (rid : Nat) (steps : List String)
    (store : List Step) :
    ((∀ j, j < steps.length → (envs j).ok) →
       postStepsRoute envs rid steps store =
         (store ++ numberedSteps rid 0 steps, .message 201 "Steps inserted successfully")) ∧
    (∀ k, k < steps.length → (∀ j, j < k → (envs j).ok) → ¬ (envs k).ok →
       postStepsRoute envs rid steps store =
         (store ++ numberedSteps rid 0 (steps.take k),
          .failure 500 "Failed to insert all steps")) := by
  constructor
  · intro h
    rw [postStepsRoute, stepsLoop_all_ok envs rid steps 0 store (by simpa using h)]
    rfl
  · intro k hk hok hfail
    rw [postStepsRoute, stepsLoop_first_fail envs rid steps k 0 store hk
      (by simpa using hok) (by simpa using hfail)]
    rfl

/-- Witness for C5: two instructions all succeeding insert steps 1 and 2 in
order with 201; three instructions whose second insert fails leave exactly
step 1 committed and respond 500. -/
theorem postSteps_ordered_abort_witness :
    postStepsRoute (fun _ => envOK) 5 ["Preheat", "Bake"] [] =
      ([⟨5, 1, "Preheat"⟩, ⟨5, 2, "Bake"⟩], .message 201 "Steps inserted successfully") ∧
    postStepsRoute (fun i => if i == 0 then envOK else envConnFail) 5
        ["Preheat", "Bake", "Serve"] [] =
      ([⟨5, 1, "Preheat"⟩], .failure 500 "Failed to insert all steps") :=
  ⟨(postSteps_ordered_abort (fun _ => envOK) 5 ["Preheat", "Bake"] []).1
      (fun j hj => by decide),
   (postSteps_ordered_abort (fun i => if i == 0 then envOK else envConnFail) 5
        ["Preheat", "Bake", "Serve"] []).2 1 (by decide)
      (fun j hj => by interval_cases j; decide) (by decide)⟩

/-- C1: every call of the `fetchRecipes` executor yields a sequence ordered
by RecipeID; the result is empty both when the query fails and when no stored
recipe matches the filters; and every returned row originates from a matching
recipe of the store, so the sequence never carries error detail. -/
theorem fetchRecipes_ordered_safe (env : DBEnv) (columns : Option (List String))
    (cuisineFilter : Option String) (id : Option Nat) (includeImages captionless : Bool)
    (recipes : List Recipe) (images : List Image) :
    List.Sorted qRowLE
      (fetchRecipes env columns cuisineFilter id includeImages captionless recipes images) ∧
    (¬ env.ok →
      fetchRecipes env columns cuisineFilter id includeImages captionless recipes images
        = []) ∧
    (∀ row ∈ fetchRecipes env columns cuisineFilter id includeImages captionless
        recipes images,
      ∃ r ∈ recipes, recipeMatches cuisineFilter id r = true ∧ row.recipeID = r.recipeID) ∧
    ((∀ r ∈ recipes, recipeMatches cuisineFilter id r = false) →
      fetchRecipes env columns cuisineFilter id includeImages captionless recipes images
        = []) := by
  have hmem : ∀ row ∈ fetchRecipesSQL columns cuisineFilter id includeImages captionless
      recipes images,
      ∃ r ∈ recipes, recipeMatches cuisineFilter id r = true ∧ row.recipeID = r.recipeID := by
    intro row hrow
    have hrow2 := (List.mem_insertionSort qRowLE).mp hrow
    by_cases himg : includeImages
    · rw [if_pos himg] at hrow2
      rcases List.mem_flatMap.mp hrow2 with ⟨r, hrf, hmem2⟩
      rcases List.mem_filter.mp hrf with ⟨hr, hmatch⟩
      rcases List.mem_map.mp hmem2 with ⟨im, _, hrw⟩
      exact ⟨r, hr, hmatch, by rw [← hrw]⟩
    · rw [if_neg himg] at hrow2
      rcases List.mem_map.mp hrow2 with ⟨r, hrf, hrw⟩
      rcases List.mem_filter.mp hrf with ⟨hr, hmatch⟩
      exact ⟨r, hr, hmatch, by rw [← hrw]⟩
  refine ⟨?_, ?_, ?_, ?_⟩
  · by_cases h : env.ok
    · rw [fetchRecipes, runCatch_of_ok env _ _ h]
      exact List.sorted_insertionSort qRowLE _
    · rw [fetchRecipes, runCatch_of_fail env _ _ h]
      exact List.sorted_nil
  · intro h
    rw [fetchRecipes, runCatch_of_fail env _ _ h]
  · intro row hrow
    rcases runCatch_cases env (fetchRecipesSQL columns cuisineFilter id includeImages
        captionless recipes images) [] with hc | hc <;> rw [fetchRecipes, hc] at hrow
    · exact hmem row hrow
    · cases hrow
  · intro h
    rcases runCatch_cases env (fetchRecipesSQL columns cuisineFilter id includeImages
        captionless recipes images) [] with hc | hc <;> rw [fetchRecipes, hc]
    rcases hq : fetchRecipesSQL columns cuisineFilter id includeImages captionless
        recipes images with _ | ⟨row, rest⟩
    · rfl
    · exfalso
      have : row ∈ fetchRecipesSQL columns cuisineFilter id includeImages captionless
          recipes images := by rw [hq]; exact List.mem_cons_self _ _
      rcases hmem row this with ⟨r, hr, hmatch, _⟩
      rw [h r hr] at hmatch
      cases hmatch

/-- Witness for C1: a failing query yields the empty sequence, and a store
whose single recipe does not match the id filter yields the empty sequence,
while a matching store yields its ordered rows. -/
theorem fetchRecipes_ordered_safe_witness :
    fetchRecipes envConnFail none none none false false
      [⟨1, "Pasta Verde", "Italian", "00:30:00", 3⟩] [] = [] ∧
    fetchRecipes envOK none none (some 999999) false false
      [⟨1, "Pasta Verde", "Italian", "00:30:00", 3⟩] [] = [] ∧
    List.Sorted qRowLE (fetchRecipes envOK none none none false false
      [⟨1, "Pasta Verde", "Italian", "00:30:00", 3⟩] []) :=
  ⟨(fetchRecipes_ordered_safe envConnFail none none none false false
      [⟨1, "Pasta Verde", "Italian", "00:30:00", 3⟩] []).2.1 (by decide),
   (fetchRecipes_ordered_safe envOK none none (some 999999) false false
      [⟨1, "Pasta Verde", "Italian", "00:30:00", 3⟩] []).2.2.2
     (by intro r hr; fin_cases hr; decide),
   (fetchRecipes_ordered_safe envOK none none none false false
      [⟨1, "Pasta Verde", "Italian", "00:30:00", 3⟩] []).1⟩

/-- C2 counterexample: with a reachable database and no matching user, the
GET /user/:id executor succeeds and returns the empty result, yet the route
responds 200 with a `{data: []}` envelope — not 404 with an `{error: ...}`
body as the claim states. -/
theorem getUser_empty_result_not_404 :
    fetchUser envOK [] [] 1 = [] ∧
    getUserRoute envOK [] [] 1 none = .rows 200 [] ∧
    (getUserRoute envOK [] [] 1 none).statusOf = 200 ∧
    (getUserRoute envOK [] [] 1 none).isErrorBody = false := by
  refine ⟨by decide, by decide, by decide, by decide⟩

/-- C2 (amended): on an empty executor result, GET /recipe/:id responds 404
with an `{error: ...}` body, but GET /user/:id, GET /users and GET /pantry/:id
respond 200 with a `{data: []}` envelope — they never inspect the result. -/
theorem get_routes_empty_result_behaviour (env : DBEnv) (recipes : List Recipe)
    (accounts : List Account) (users : List User) (tiers : List Tier)
    (userPantries : List UserPantry) (savedPantries : List SavedPantry)
    (rid uid : Nat) (cols : Option String) :
    (fetchRecipeByID env recipes accounts rid = [] →
      getRecipeByIdRoute env recipes accounts rid = .failure 404 "Recipe not found") ∧
    (fetchUser env users tiers uid = [] →
      getUserRoute env users tiers uid cols = .rows 200 []) ∧
    (fetchAllUsers env users tiers (cols.map (fun s => s.splitOn ",")) = [] →
      getUsersRoute env users tiers cols = .rows 200 []) ∧
    (fetchPantries env userPantries savedPantries uid = [] →
      getPantryRoute env userPantries savedPantries uid = .rows 200 []) := by
  refine ⟨?_, ?_, ?_, ?_⟩ <;> intro h
  · simp [getRecipeByIdRoute, h]
  · simp [getUserRoute, h]
  · simp [getUsersRoute, h]
  · simp [getPantryRoute, h]

/-- Witness for C2 (amended) on empty stores under a successful environment. -/
theorem get_routes_empty_result_behaviour_witness :
    getRecipeByIdRoute envOK [] [] 1 = .failure 404 "Recipe not found" ∧
    getUserRoute envOK [] [] 1 none = .rows 200 [] ∧
    getUsersRoute envOK [] [] none = .rows 200 [] ∧
    getPantryRoute envOK [] [] 1 = .rows 200 [] :=
  ⟨(get_routes_empty_result_behaviour envOK [] [] [] [] [] [] 1 1 none).1 (by decide),
   (get_routes_empty_result_behaviour envOK [] [] [] [] [] [] 1 1 none).2.1 (by decide),
   (get_routes_empty_result_behaviour envOK [] [] [] [] [] [] 1 1 none).2.2.1 (by decide),
   (get_routes_empty_result_behaviour envOK [] [] [] [] [] [] 1 1 none).2.2.2 (by decide)⟩

/-- C3 counterexample: when the update or delete executor reports failure
(0 rows affected after a caught error), PUT /recipe/:id and DELETE /recipe/:id
respond 404, not 500 as the claim states. -/
theorem putRecipe_failure_404_not_500 :
    (updateRecipe envExecFail [] ⟨1, "Pasta Verde", "Italian", "00:30:00", 3⟩).2 = 0 ∧
    (putRecipeRoute envExecFail [] 1 ⟨"Pasta Verde", "Italian", "00:30:00", 3⟩).2 =
      .failure 404 "Recipe not found or not updated" ∧
    (putRecipeRoute envExecFail [] 1
      ⟨"Pasta Verde", "Italian", "00:30:00", 3⟩).2.statusOf ≠ 500 ∧
    (deleteRecipe envExecFail [] 1).2 = 0 ∧
    (deleteRecipeRoute envExecFail [] 1).2 = .failure 404 "Recipe not found or not deleted" ∧
    (deleteRecipeRoute envExecFail [] 1).2.statusOf ≠ 500 := by
  refine ⟨by decide, by decide, by decide, by decide, by decide, by decide⟩

/-- C3 (amended): POST /recipe responds 500 with an `{error: ...}` body when
createRecipe reports failure (null); PUT /recipe/:id and DELETE /recipe/:id
respond 404 with an `{error: ...}` body whenever their executor reports 0
rows affected — which covers the caught-error case — and never 500. -/
theorem mutating_routes_failure_behaviour (env : DBEnv) (recipes : List Recipe)
    (seq rid : Nat) (body : RecipeBody) :
    ((createRecipe env recipes seq body).2 = none →
      (postRecipeRoute env recipes seq body).2 = .failure 500 "Failed to create recipe") ∧
    ((updateRecipe env recipes
        ⟨rid, body.recipeName, body.cuisine, body.cookingTime, body.userID⟩).2 = 0 →
      (putRecipeRoute env recipes rid body).2 =
        .failure 404 "Recipe not found or not updated") ∧
    ((deleteRecipe env recipes rid).2 = 0 →
      (deleteRecipeRoute env recipes rid).2 =
        .failure 404 "Recipe not found or not deleted") := by
  refine ⟨?_, ?_, ?_⟩ <;> intro h
  · rcases hd : createRecipe env recipes seq body with ⟨st, resp⟩
    rw [hd] at h
    simp only at h
    subst h
    simp [postRecipeRoute, hd]
  · rcases hd : updateRecipe env recipes
        ⟨rid, body.recipeName, body.cuisine, body.cookingTime, body.userID⟩ with ⟨st, n⟩
    rw [hd] at h
    simp only at h
    subst h
    simp [putRecipeRoute, hd]
  · rcases hd : deleteRecipe env recipes rid with ⟨st, n⟩
    rw [hd] at h
    simp only at h
    subst h
    simp [deleteRecipeRoute, hd]

/-- Witness for C3 (amended) at a failing execution over an empty store. -/
theorem mutating_routes_failure_behaviour_witness :
    (postRecipeRoute envExecFail [] 1 ⟨"Pasta Verde", "Italian", "00:30:00", 3⟩).2 =
      .failure 500 "Failed to create recipe" ∧
    (putRecipeRoute envExecFail [] 1 ⟨"Pasta Verde", "Italian", "00:30:00", 3⟩).2 =
      .failure 404 "Recipe not found or not updated" ∧
    (deleteRecipeRoute envExecFail [] 1).2 = .failure 404 "Recipe not found or not deleted" :=
  ⟨(mutating_routes_failure_behaviour envExecFail [] 1 1
      ⟨"Pasta Verde", "Italian", "00:30:00", 3⟩).1 (by decide),
   (mutating_routes_failure_behaviour envExecFail [] 1 1
      ⟨"Pasta Verde", "Italian", "00:30:00", 3⟩).2.1 (by decide),
   (mutating_routes_failure_behaviour envExecFail [] 1 1
      ⟨"Pasta Verde", "Italian", "00:30:00", 3⟩).2.2 (by decide)⟩
